import Mathlib

/-!
Shallow embedding of the nosman publish pipeline
(`src/Toolchain/nosman/src/nosman/command/publish.rs`) together with the
parts of the surrounding crate it calls into.  Pure data and control flow
are translated directly from the Rust source; external interactions
(filesystem, dynamic-library probing, the git/GitHub backend) are
represented by an explicit environment of oracles, and every observable
side effect performed by `run_publish` is recorded in an effect trace.
-/

namespace Nosman

/-- Platform as in `nosman::platform` (os and arch components). -/
structure Platform where
  os : String
  arch : String
deriving DecidableEq, Repr

/-- Modelled from the spec: a `Platform` renders as an `os-arch`-style token
(`platform.rs` is out of scope; only its rendering is needed here). -/
def Platform.toString (p : Platform) : String := p.os ++ "-" ++ p.arch

/-- Split a character list at every occurrence of `sep` (kernel-reducible
counterpart of `String.splitOn` for a one-character separator). -/
def splitOnCharAux (sep : Char) : List Char → List (List Char)
  | [] => [[]]
  | c :: cs =>
    match splitOnCharAux sep cs with
    | g :: gs => if c = sep then [] :: g :: gs else (c :: g) :: gs
    | [] => if c = sep then [[], []] else [[c]]

/-- Split a string at every occurrence of `sep`. -/
def splitOnChar (sep : Char) (s : String) : List String :=
  (splitOnCharAux sep s.data).map String.mk

/-- Modelled from the spec: `Platform::from_str` parses an `os-arch` token
(`platform.rs` is out of scope).  `none` models the parse failure that
`run_publish` turns into a panic via `.expect("Invalid target platform")`. -/
def Platform.from_str (s : String) : Option Platform :=
  match splitOnChar '-' s with
  | [os, arch] => some { os := os, arch := arch }
  | _ => none

/-- Package kinds, from `nosman::index::PackageType`. -/
inductive PackageType where
  | plugin
  | subsystem
  | nodos
  | engine
deriving DecidableEq, Repr

/-- Partial semantic version, from `nosman::index::SemVer` (field shape as
used at publish.rs:326). -/
structure SemVer where
  major : Nat
  minor : Option Nat
  patch : Option Nat
  build_number : Option Nat
deriving DecidableEq, Repr

/-- Dependency edge, from `nosman::module::PackageIdentifier`. -/
structure PackageIdentifier where
  name : String
  version : String
deriving DecidableEq, Repr

/-- Release entry written into the remote catalog, from
`nosman::index::PackageReleaseEntry` (fields as populated at
publish.rs:473-491). -/
structure PackageReleaseEntry where
  version : String
  url : String
  plugin_api_version : Option SemVer
  subsystem_api_version : Option SemVer
  release_date : Option String
  dependencies : Option (List PackageIdentifier)
  category : Option String
  module_tags : Option (List String)
  release_tags : Option (List String)
  platform : Option String
  min_required_api_minor_version : Option Nat
deriving DecidableEq, Repr

/-- Module manifest contents (the JSON fields `run_publish` reads:
`info.id.name`, `info.id.version`, `info.dependencies`, `info.category`,
`info.tags`, `binary_path`, `additional_search_paths`). -/
structure Manifest where
  name : String
  version : String
  dependencies : Option (List PackageIdentifier)
  category : Option String
  tags : Option (List String)
  binary_path : Option String
  additional_search_paths : List String
deriving DecidableEq, Repr

/-- Contents of a file on disk: either opaque bytes or a module manifest
(JSON parse/serialisation of manifests is treated as the identity on the
structured value). -/
inductive FileData where
  | raw (bytes : List Nat)
  | manifest (m : Manifest)
deriving DecidableEq, Repr

/-- Publish policy options, from `PublishOptions` in publish.rs:34-41. -/
structure PublishOptions where
  release_globs : List String
  additional_publish_triggering_globs : Option (List String)
  target_platforms : Option (List String)
deriving DecidableEq, Repr

/-- Counterpart of `PublishOptions::empty` (publish.rs:56-58). -/
def PublishOptions.empty : PublishOptions :=
  { release_globs := [], additional_publish_triggering_globs := none,
    target_platforms := none }

/-- Counterpart of `PublishOptions::from_file` (publish.rs:44-55): the
argument is the parsed contents of the options file when it exists.  When
the file is absent the globs default to `["**"]` and `found` is `false`. -/
def PublishOptions.from_file (contents : Option PublishOptions) :
    PublishOptions × Bool :=
  match contents with
  | some o => (o, true)
  | none =>
      ({ release_globs := ["**"], additional_publish_triggering_globs := none,
         target_platforms := none }, false)

/-- Error type, from `nosman::command::CommandError` (the variants
`run_publish` constructs). -/
inductive CommandError where
  | ioError (message : String)
  | invalidArgumentError (message : String)
  | genericError (message : String)
deriving DecidableEq, Repr

/-- Result of one `run_publish` invocation: the Rust `CommandResult`
(`Ok(bool)` or a typed error) extended with an explicit constructor for
process aborts caused by `unwrap`/`expect`/`panic`. -/
inductive PublishOutcome where
  | ok (b : Bool)
  | err (e : CommandError)
  | panic (message : String)
deriving DecidableEq, Repr

/-- Archive container format chosen by the packaging step. -/
inductive ArchiveFormat where
  | zip
  | targz
deriving DecidableEq, Repr

/-- Observable side effects of a publish run, in execution order. -/
inductive Effect where
  /-- `tempdir()` at publish.rs:375 creates a temporary directory on disk. -/
  | createdTempDir (path : String)
  /-- `PublishOptions::from_file` reads the options file under the package
  root (publish.rs:221). -/
  | readOptionsFile (dir : String)
  /-- manifest discovery under the package root (publish.rs:232-241). -/
  | searchedManifests (dir : String)
  /-- manifest file parse (publish.rs:256-257). -/
  | readManifest (path : String)
  /-- dynamic-library load and symbol probing (publish.rs:304-344). -/
  | probedBinary (path : String)
  /-- archive creation in the temporary directory (publish.rs:416-458);
  `entries` are the (archive-relative path, content) pairs written. -/
  | createdArchive (path : String) (fmt : ArchiveFormat)
      (entries : List (String × FileData))
  /-- a dry-run only reports the action it would have taken. -/
  | dryRunReport (action : String)
  /-- non-dry `fetch_add`: the release entry is registered in the remote
  catalog (publish.rs:498). -/
  | backendRegister (moduleName : String) (vendor : Option String)
      (pt : PackageType) (release : PackageReleaseEntry)
  /-- non-dry `create_gh_release`: the artifacts are uploaded as a hosted
  release tied to `commitRef` (publish.rs:505). -/
  | backendUpload (commitRef : String) (tag : String)
      (artifacts : List String)
deriving DecidableEq, Repr

/-- Backend (remote catalog / hosted release) mutations. -/
def Effect.isBackendMutation : Effect → Bool
  | .backendRegister _ _ _ _ => true
  | .backendUpload _ _ _ => true
  | _ => false

/-- Filesystem writes performed by the publish pipeline. -/
def Effect.isFilesystemWrite : Effect → Bool
  | .createdTempDir _ => true
  | .createdArchive _ _ _ => true
  | _ => false

/-- Effects that inspect the package directory (options file, manifest
discovery and parsing, native-binary probing) or archive it. -/
def Effect.isDirectoryProcessing : Effect → Bool
  | .readOptionsFile _ => true
  | .searchedManifests _ => true
  | .readManifest _ => true
  | .probedBinary _ => true
  | .createdArchive _ _ _ => true
  | _ => false

/-- Configured remote (name and URL), from `nosman::workspace`. -/
structure Remote where
  name : String
  url : String
deriving DecidableEq, Repr

/-- Environment of a publish run: host facts, filesystem contents and the
results of the external interactions (probing, backend calls).  Each field
is the outcome the corresponding external call would produce. -/
structure Env where
  /-- `git --version` succeeds (publish.rs:179-182). -/
  gitInstalled : Bool
  /-- `gh --version` succeeds (publish.rs:186-189). -/
  ghInstalled : Bool
  /-- `get_host_platform()` result. -/
  hostPlatform : Platform
  /-- `path.exists()` (publish.rs:203). -/
  pathExists : Bool
  /-- `abs_path.is_dir()` (publish.rs:220). -/
  isDir : Bool
  /-- `dunce::canonicalize(path)` result (publish.rs:207). -/
  absPath : String
  /-- parsed contents of the publish-options file if it exists. -/
  optionsFile : Option PublishOptions
  /-- `get_plugin_manifest_file` result (publish.rs:232). -/
  pluginManifestFile : Except String (Option String)
  /-- `get_subsystem_manifest_file` result (publish.rs:237). -/
  subsystemManifestFile : Except String (Option String)
  /-- file contents by path. -/
  readFile : String → FileData
  /-- glob expansion of the release globs against the package root,
  directories already excluded (publish.rs:381-392). -/
  globWalk : List String → List String
  /-- dynamic-library load result (publish.rs:306). -/
  probeLoad : Except String Unit
  /-- mandatory API-version symbol: `none` models a missing symbol, which
  the source turns into a panic via `.expect` (publish.rs:321). -/
  probeApi : Option (Nat × Nat × Nat)
  /-- optional minimum-required-minor symbol result (publish.rs:335-341). -/
  probeMinMinor : Option Int
  /-- `Workspace::get()` result (publish.rs:373). -/
  workspaceLoad : Except CommandError Unit
  /-- configured remotes of the workspace (`workspace.find_remote`). -/
  remotes : List Remote
  /-- path of the temporary directory created at publish.rs:375. -/
  tempDir : String
  /-- `Utc::now().to_rfc3339()` (publish.rs:472). -/
  now : String
  /-- Rust `char::is_numeric` (publish.rs:173); kept abstract because it
  accepts every Unicode numeric character, not only ASCII digits. -/
  charIsNumeric : Char → Bool
  /-- `SemVer::parse_from_string` (publish.rs:370); `index.rs` is out of
  scope, so the parser is an oracle of the run. -/
  semverParse : String → Option SemVer
  /-- non-dry `fetch_add` backend result: commit reference or error. -/
  fetchAddResult : Except String String
  /-- non-dry `create_gh_release` backend result. -/
  createReleaseResult : Except String Unit

/-- Rust `char::is_ascii_lowercase`. -/
def isAsciiLowercase (c : Char) : Bool :=
  97 ≤ c.toNat && c.toNat ≤ 122

/-- Counterpart of `PublishCommand::is_name_valid` (publish.rs:171-174),
parameterised by the `char::is_numeric` predicate. -/
def is_name_valid (isNumeric : Char → Bool) (name : String) : Bool :=
  name.data.all fun c =>
    c == '.' || c == '_' || isNumeric c || isAsciiLowercase c

/-- The skip guard of publish.rs:225-229: the options file was found and its
`target_platforms` list does not contain the resolved target platform. -/
def targetPlatformExcluded (nospub : PublishOptions) (found : Bool)
    (targetPlatform : Platform) : Bool :=
  found &&
    match nospub.target_platforms with
    | some targets => !(targets.contains targetPlatform.toString)
    | none => false

/-- Either an early return out of `run_publish` or a value to continue
with. -/
inductive Step (α : Type) where
  | cont (a : α)
  | done (r : PublishOutcome)

/-- Values accumulated by the directory-scanning part of `run_publish`
(the mutable locals of publish.rs:209-252 at the point of line 348). -/
structure ScanResult where
  nospub : PublishOptions
  name : Option String
  version : Option String
  packageType : Option PackageType
  manifestFile : Option String
  apiVersion : Option SemVer
  minRequiredMinor : Option Nat
  dependencies : Option (List PackageIdentifier)
  category : Option String
  moduleTags : Option (List String)

/-- Platform-specific dynamic-library file name (publish.rs:277-281);
`with_extension` is modelled as appending the extension. -/
def binaryFileName (targetOS : String) (binaryPath : String) : String :=
  binaryPath ++ "." ++
    (if targetOS == "windows" then "dll"
     else if targetOS == "macos" then "dylib" else "so")

/-- Native-binary probing (publish.rs:304-344): load the library, query the
mandatory API-version symbol (missing symbol panics via `.expect`), then the
optional minimum-required-minor symbol (recorded only when positive). -/
def probeNativeBinary (env : Env) (symbolName binPath : String) :
    Step (SemVer × Option Nat) × List Effect :=
  match env.probeLoad with
  | .error e =>
      (.done (.err (.invalidArgumentError
        ("Could not load dynamic library " ++ binPath ++ ": " ++ e ++
         ". Make sure all the dependencies are present in the system and the search paths."))),
       [Effect.probedBinary binPath])
  | .ok _ =>
      match env.probeApi with
      | none =>
          (.done (.panic ("Failed to get symbol " ++ symbolName)),
           [Effect.probedBinary binPath])
      | some (maj, mino, pat) =>
          (.cont ({ major := maj, minor := some mino, patch := some pat,
                    build_number := none },
                  match env.probeMinMinor with
                  | some v => if 0 < v then some v.toNat else none
                  | none => none),
           [Effect.probedBinary binPath])

/-- Directory scanning part of `run_publish` (publish.rs:218-347): load the
publish options, apply the target-platform skip policy, discover manifests,
read the manifest and probe the declared native binary.  When the path is
not a directory the initial values pass through unchanged. -/
def scanDirectory (env : Env) (targetPlatform : Platform)
    (name0 version0 : Option String) (packageType0 : Option PackageType) :
    Step ScanResult × List Effect :=
  if !env.isDir then
    (.cont { nospub := PublishOptions.empty, name := name0,
             version := version0, packageType := packageType0,
             manifestFile := none, apiVersion := none,
             minRequiredMinor := none, dependencies := none,
             category := none, moduleTags := none }, [])
  else
    let pf := PublishOptions.from_file env.optionsFile
    let nospub := pf.1
    let found := pf.2
    let tr0 := [Effect.readOptionsFile env.absPath]
    if targetPlatformExcluded nospub found targetPlatform then
      (.done (.ok false), tr0)
    else
      let tr1 := tr0 ++ [Effect.searchedManifests env.absPath]
      match env.pluginManifestFile with
      | .error e => (.done (.err (.invalidArgumentError e)), tr1)
      | .ok pluginManifest =>
        match env.subsystemManifestFile with
        | .error e => (.done (.err (.invalidArgumentError e)), tr1)
        | .ok subsystemManifest =>
          if pluginManifest.isSome && subsystemManifest.isSome then
            (.done (.err (.invalidArgumentError
              ("Multiple module manifest files found in " ++ env.absPath))), tr1)
          else
            let packageType :=
              if pluginManifest.isSome then some PackageType.plugin
              else if subsystemManifest.isSome then some PackageType.subsystem
              else packageType0
            match pluginManifest.or subsystemManifest with
            | none =>
                (.cont { nospub := nospub, name := name0, version := version0,
                         packageType := packageType, manifestFile := none,
                         apiVersion := none, minRequiredMinor := none,
                         dependencies := none, category := none,
                         moduleTags := none }, tr1)
            | some mf =>
              let tr2 := tr1 ++ [Effect.readManifest mf]
              match env.readFile mf with
              | .raw _ =>
                  -- `serde_json::from_str(&contents).unwrap()` on a file that
                  -- is not a manifest aborts the process.
                  (.done (.panic "manifest parse failed"), tr2)
              | .manifest m =>
                let name := some m.name
                let version := some m.version
                let dependencies := m.dependencies
                let category := m.category
                let moduleTags := m.tags
                match m.binary_path with
                | none =>
                    (.cont { nospub := nospub, name := name, version := version,
                             packageType := packageType, manifestFile := some mf,
                             apiVersion := none, minRequiredMinor := none,
                             dependencies := dependencies, category := category,
                             moduleTags := moduleTags }, tr2)
                | some bp =>
                  -- publish.rs:254 unwraps `package_type`, then lines 316-319
                  -- select the probe symbol and abort on other kinds; both
                  -- cases are unreachable because a manifest fixes the kind.
                  match packageType with
                  | none => (.done (.panic "called Option::unwrap on a None value"), tr2)
                  | some PackageType.nodos => (.done (.panic "Invalid package type"), tr2)
                  | some PackageType.engine => (.done (.panic "Invalid package type"), tr2)
                  | some pt =>
                    let symbolName :=
                      match pt with
                      | PackageType.plugin => "nosGetPluginAPIVersion"
                      | _ => "nosGetSubsystemAPIVersion"
                    let binFile := binaryFileName targetPlatform.os bp
                    let pr := probeNativeBinary env symbolName binFile
                    match pr.1 with
                    | .done r => (.done r, tr2 ++ pr.2)
                    | .cont (apiV, minReq) =>
                        (.cont { nospub := nospub, name := name,
                                 version := version, packageType := packageType,
                                 manifestFile := some mf,
                                 apiVersion := some apiV,
                                 minRequiredMinor := minReq,
                                 dependencies := dependencies,
                                 category := category,
                                 moduleTags := moduleTags }, tr2 ++ pr.2)

/-- Archive-relative entry name: the walker paths have the package root
stripped (publish.rs:434/443, `strip_prefix(&abs_path)`). -/
def stripRoot (root p : String) : String :=
  if (root.data ++ ['/']).isPrefixOf p.data then
    String.mk (p.data.drop (root.data.length + 1))
  else p

/-- Manifest-version rewrite applied while archiving (publish.rs:404-412):
the collected manifest file gets its `info.id.version` replaced by the
finalized version.  The `raw` case is unreachable for the manifest file,
whose earlier parse already succeeded. -/
def rewriteVersion (version : String) : FileData → FileData
  | .manifest m => .manifest { m with version := version }
  | .raw b => .raw b

/-- Archive format by the publishing host OS (publish.rs:416 together with
the compile-time writer choice at publish.rs:420-428). -/
def hostArchiveFormat (env : Env) : ArchiveFormat :=
  if env.hostPlatform.os == "windows" then ArchiveFormat.zip
  else ArchiveFormat.targz

/-- Packaging step (publish.rs:376-463): a directory is globbed, its files
read (rewriting the manifest version) and archived in the temp directory in
the host-OS format; a single file is used verbatim as the artifact. -/
def packageArtifact (env : Env) (s : ScanResult) (tag version : String) :
    String × List Effect :=
  if env.isDir then
    let files := env.globWalk s.nospub.release_globs
    let entries := files.map fun p =>
      (stripRoot env.absPath p,
       if s.manifestFile = some p then rewriteVersion version (env.readFile p)
       else env.readFile p)
    let ext := if env.hostPlatform.os == "windows" then "zip" else "tar.gz"
    let archivePath := env.tempDir ++ "/" ++ tag ++ "." ++ ext
    (archivePath, [Effect.createdArchive archivePath (hostArchiveFormat env) entries])
  else
    (env.absPath, [])

/-- Last path component, used for the release URL (publish.rs:475). -/
def fileNameOf (p : String) : String :=
  (splitOnChar '/' p).getLastD p

/-- Modelled from the spec: `RemoteIndex.fetch_add` (the remote backend is
out of scope).  It registers the release entry in the remote catalog; under
`dry_run` it performs no write and returns a synthetic reference, otherwise
the backend decides between a commit reference and an error. -/
def fetch_add (env : Env) (dry_run : Bool) (moduleName : String)
    (vendor : Option String) (pt : PackageType)
    (release : PackageReleaseEntry) : Except String String × List Effect :=
  if dry_run then (Except.ok "dry-run", [Effect.dryRunReport "fetch_add"])
  else (env.fetchAddResult,
        [Effect.backendRegister moduleName vendor pt release])

/-- Modelled from the spec: `Remote.create_gh_release` (the remote backend
is out of scope).  It uploads the artifacts as a hosted release tied to the
given commit reference; under `dry_run` it performs no upload. -/
def create_gh_release (env : Env) (dry_run : Bool) (commitRef : String)
    (tag : String) (artifacts : List String) :
    Except String Unit × List Effect :=
  if dry_run then (Except.ok (), [Effect.dryRunReport "create_gh_release"])
  else (env.createReleaseResult,
        [Effect.backendUpload commitRef tag artifacts])

/-- Backend phase of `run_publish` (publish.rs:497-510): register the
release entry through `fetch_add`, then upload the artifact through
`create_gh_release` with the commit reference returned by `fetch_add`;
either failure aborts with the backend error and nothing else runs. -/
def publishTail (env : Env) (dry_run : Bool) (name : String)
    (vendor : Option String) (package_type : PackageType)
    (release : PackageReleaseEntry) (tag : String)
    (artifact_file_path : String) : PublishOutcome × List Effect :=
  let fa := fetch_add env dry_run name vendor package_type release
  match fa.1 with
  | .error e => (.err (.genericError e), fa.2)
  | .ok commit_sha =>
    let gr := create_gh_release env dry_run commit_sha tag [artifact_file_path]
    match gr.1 with
    | .error e => (.err (.genericError e), fa.2 ++ gr.2)
    | .ok _ => (.ok true, fa.2 ++ gr.2)

/-- Counterpart of `PublishCommand::run_publish` (publish.rs:175-511),
returning the command result together with the trace of observable
effects.  `verbose`, `publisher_name` and `publisher_email` only influence
logging and the commit authorship inside the backend and are kept for
signature fidelity. -/
def run_publish (env : Env) (dry_run verbose : Bool) (path : String)
    (name0 version0 : Option String) (version_suffix : String)
    (package_type0 : Option PackageType) (remote_name : String)
    (vendor publisher_name publisher_email : Option String)
    (release_tags : List String) (opt_target_platform : Option String) :
    PublishOutcome × List Effect :=
  if !env.gitInstalled then
    (.err (.genericError "git is not on PATH"), [])
  else if !env.ghInstalled then
    (.err (.genericError "GitHub CLI client 'gh' is not on PATH"), [])
  else
    match (match opt_target_platform with
           | none => some env.hostPlatform
           | some s => Platform.from_str s) with
    | none => (.panic "Invalid target platform", [])
    | some target_platform =>
      if !env.pathExists then
        (.err (.invalidArgumentError ("Path " ++ path ++ " does not exist")), [])
      else
        let sc := scanDirectory env target_platform name0 version0 package_type0
        match sc.1 with
        | .done r => (r, sc.2)
        | .cont s =>
          let tr := sc.2
          -- publish.rs:348 `package_type.unwrap()` aborts when no package
          -- type was resolved, before the name/version checks below.
          match s.packageType with
          | none => (.panic "called Option::unwrap on a None value", tr)
          | some package_type =>
            match s.name with
            | none =>
                (.err (.invalidArgumentError
                  "Name is not provided and could not be inferred"), tr)
            | some name =>
              match s.version with
              | none =>
                  (.err (.invalidArgumentError
                    "Version is not provided and could not be inferred"), tr)
              | some versionBase =>
                let version := versionBase ++ version_suffix
                let tag := name ++ "-" ++ version ++ "-" ++ target_platform.toString
                if !is_name_valid env.charIsNumeric name then
                  (.err (.invalidArgumentError
                    ("Name " ++ name ++
                     " is not valid. It should match regex [a-z0-9._]")), tr)
                else if (env.semverParse version).isNone then
                  (.err (.invalidArgumentError
                    ("Version should be semantic-versioning compatible: " ++ version)), tr)
                else
                  match env.workspaceLoad with
                  | .error e => (.err e, tr)
                  | .ok _ =>
                    let tr := tr ++ [Effect.createdTempDir env.tempDir]
                    let pa := packageArtifact env s tag version
                    let artifact_file_path := pa.1
                    let tr := tr ++ pa.2
                    match env.remotes.find? (fun r => r.name == remote_name) with
                    | none =>
                        (.err (.invalidArgumentError
                          ("Remote " ++ remote_name ++ " not found")), tr)
                    | some remote =>
                      let release : PackageReleaseEntry :=
                        { version := version,
                          url := remote.url ++ "/releases/download/" ++ tag ++
                                 "/" ++ fileNameOf artifact_file_path,
                          plugin_api_version :=
                            (match package_type with
                             | PackageType.plugin => s.apiVersion
                             | _ => none),
                          subsystem_api_version :=
                            (match package_type with
                             | PackageType.subsystem => s.apiVersion
                             | _ => none),
                          release_date := some env.now,
                          dependencies := s.dependencies,
                          category := s.category,
                          module_tags := s.moduleTags,
                          release_tags :=
                            if release_tags.isEmpty then none
                            else some release_tags,
                          platform := some target_platform.toString,
                          min_required_api_minor_version := s.minRequiredMinor }
                      let tl := publishTail env dry_run name vendor package_type
                                  release tag artifact_file_path
                      (tl.1, tr ++ tl.2)

/-- Modelled from the spec: `SemVer::parse_from_string` accepts
`major[.minor[.patch[.build]]]` with non-negative integer components and
rejects empty or non-numeric components and prefixed literals (`index.rs`
is out of scope; this concrete parser instantiates the oracle in
witnesses). -/
def parseNatComponent (s : String) : Option Nat :=
  if s.length > 0 && s.data.all Char.isDigit then
    some (s.data.foldl (fun n c => n * 10 + (c.toNat - 48)) 0)
  else none

/-- Modelled from the spec: see `parseNatComponent`. -/
def semverParseSpec (s : String) : Option SemVer :=
  match (splitOnChar '.' s).map parseNatComponent with
  | [some a] => some { major := a, minor := none, patch := none, build_number := none }
  | [some a, some b] => some { major := a, minor := some b, patch := none, build_number := none }
  | [some a, some b, some c] => some { major := a, minor := some b, patch := some c, build_number := none }
  | [some a, some b, some c, some d] => some { major := a, minor := some b, patch := some c, build_number := some d }
  | _ => none

/-- Effects allowed before the backend phase of a publish: no backend
mutation, and any archive created is in the host-OS format. -/
def Effect.preOk (env : Env) : Effect → Bool
  | .backendRegister _ _ _ _ => false
  | .backendUpload _ _ _ => false
  | .dryRunReport _ => false
  | .createdArchive _ f _ => f == hostArchiveFormat env
  | _ => true

theorem preOk_not_backend (env : Env) (ef : Effect)
    (h : Effect.preOk env ef = true) : ef.isBackendMutation = false := by
  cases ef <;> simp_all [Effect.preOk, Effect.isBackendMutation]

theorem preOk_archive_format (env : Env) (p : String) (f : ArchiveFormat)
    (ents : List (String × FileData))
    (h : Effect.preOk env (Effect.createdArchive p f ents) = true) :
    f = hostArchiveFormat env := by
  simpa [Effect.preOk] using h

theorem probeNativeBinary_trace (env : Env) (symbolName binPath : String) :
    (probeNativeBinary env symbolName binPath).2 =
      [Effect.probedBinary binPath] := by
  unfold probeNativeBinary
  rcases env.probeLoad with _ | _ <;> simp
  rcases env.probeApi with _ | ⟨⟨maj, mino⟩, pat⟩ <;> simp

theorem scanDirectory_preOk (env : Env) (tp : Platform)
    (n0 v0 : Option String) (pt0 : Option PackageType) :
    ((scanDirectory env tp n0 v0 pt0).2).all (Effect.preOk env) = true := by
  unfold scanDirectory
  repeat'
    first
      | rfl
      | split
      | simp [probeNativeBinary_trace, Effect.preOk]

theorem packageArtifact_preOk (env : Env) (s : ScanResult)
    (tag version : String) :
    ((packageArtifact env s tag version).2).all (Effect.preOk env) = true := by
  unfold packageArtifact
  split <;> simp [Effect.preOk]

theorem publishTail_dry (env : Env) (nm : String) (vnd : Option String)
    (pt : PackageType) (rel : PackageReleaseEntry) (tg art : String) :
    publishTail env true nm vnd pt rel tg art =
      (.ok true, [Effect.dryRunReport "fetch_add",
                  Effect.dryRunReport "create_gh_release"]) := rfl

theorem publishTail_fetch_error (env : Env) (nm : String)
    (vnd : Option String) (pt : PackageType) (rel : PackageReleaseEntry)
    (tg art e : String) (h : env.fetchAddResult = .error e) :
    publishTail env false nm vnd pt rel tg art =
      (.err (.genericError e), [Effect.backendRegister nm vnd pt rel]) := by
  simp [publishTail, fetch_add, create_gh_release, h]

theorem publishTail_upload_error (env : Env) (nm : String)
    (vnd : Option String) (pt : PackageType) (rel : PackageReleaseEntry)
    (tg art sha e : String) (h1 : env.fetchAddResult = .ok sha)
    (h2 : env.createReleaseResult = .error e) :
    publishTail env false nm vnd pt rel tg art =
      (.err (.genericError e),
       [Effect.backendRegister nm vnd pt rel,
        Effect.backendUpload sha tg [art]]) := by
  simp [publishTail, fetch_add, create_gh_release, h1, h2]

theorem publishTail_success (env : Env) (nm : String) (vnd : Option String)
    (pt : PackageType) (rel : PackageReleaseEntry) (tg art sha : String)
    (h1 : env.fetchAddResult = .ok sha)
    (h2 : env.createReleaseResult = .ok ()) :
    publishTail env false nm vnd pt rel tg art =
      (.ok true,
       [Effect.backendRegister nm vnd pt rel,
        Effect.backendUpload sha tg [art]]) := by
  simp [publishTail, fetch_add, create_gh_release, h1, h2]

set_option maxHeartbeats 2000000 in
/-- Structure of every publish run: either the run stops before the backend
phase and its whole trace satisfies `Effect.preOk`, or the trace is a
`preOk` prefix followed by exactly the backend-phase trace of `publishTail`
for a release entry whose finalized version parsed as SemVer. -/
theorem run_publish_cases (env : Env) (dry verbose : Bool) (path : String)
    (n0 v0 : Option String) (sfx : String) (pt0 : Option PackageType)
    (rn : String) (vnd pn pe : Option String) (tags : List String)
    (otp : Option String) :
    ((run_publish env dry verbose path n0 v0 sfx pt0 rn vnd pn pe tags otp).2.all
        (Effect.preOk env) = true) ∨
    ∃ pre nm vnd2 pt rel tg art,
      pre.all (Effect.preOk env) = true ∧
      (env.semverParse rel.version).isSome = true ∧
      (run_publish env dry verbose path n0 v0 sfx pt0 rn vnd pn pe tags otp).2 =
        pre ++ (publishTail env dry nm vnd2 pt rel tg art).2 ∧
      (run_publish env dry verbose path n0 v0 sfx pt0 rn vnd pn pe tags otp).1 =
        (publishTail env dry nm vnd2 pt rel tg art).1 := by
  unfold run_publish
  dsimp only
  repeat' split
  all_goals
    first
      | exact Or.inl rfl
      | (refine Or.inl ?_
         dsimp only
         repeat'
           first
             | rfl
             | split
             | simp [List.all_append, scanDirectory_preOk, packageArtifact_preOk,
                     Effect.preOk]
         done)
      | (refine Or.inr ⟨_, _, _, _, _, _, _, ?_, ?_, rfl, rfl⟩
         · simp [List.all_append, scanDirectory_preOk, packageArtifact_preOk,
                 Effect.preOk]
         · rename_i hv _
           cases hsv : env.semverParse _ <;> simp_all)

/-- Concrete plugin manifest used by the witness runs. -/
def manifestA : Manifest :=
  { name := "mymodule", version := "2.0.0", dependencies := none,
    category := some "tools", tags := none, binary_path := none,
    additional_search_paths := [] }

/-- Concrete environment of a directory publish on a Linux host: one plugin
manifest, no options file, a healthy workspace and backend. -/
def envA : Env :=
  { gitInstalled := true, ghInstalled := true,
    hostPlatform := { os := "linux", arch := "x64" },
    pathExists := true, isDir := true, absPath := "/pkg",
    optionsFile := none,
    pluginManifestFile := .ok (some "/pkg/mymodule.noscfg"),
    subsystemManifestFile := .ok none,
    readFile := fun p =>
      if p = "/pkg/mymodule.noscfg" then .manifest manifestA else .raw [0],
    globWalk := fun _ => ["/pkg/mymodule.noscfg", "/pkg/lib.so"],
    probeLoad := .ok (), probeApi := some (1, 2, 0), probeMinMinor := none,
    workspaceLoad := .ok (),
    remotes := [{ name := "default", url := "https://example.org/repo" }],
    tempDir := "/tmp/t", now := "2026-01-01T00:00:00+00:00",
    charIsNumeric := Char.isDigit,
    semverParse := semverParseSpec,
    fetchAddResult := .ok "abc123",
    createReleaseResult := .ok () }

theorem all_preOk_no_backend (env : Env) (tr : List Effect)
    (h : tr.all (Effect.preOk env) = true) :
    ∀ ef ∈ tr, ef.isBackendMutation = false := fun ef hef =>
  preOk_not_backend env ef (List.all_eq_true.mp h ef hef)

/-- C1: in a publish, the release registration (`fetch_add`) happens before
the hosted-release upload (`create_gh_release`), the commit reference
returned by `fetch_add` is the one passed to `create_gh_release`, and when
the upload fails after a successful registration the run returns the error
with the upload as the final effect — no compensating or rollback operation
on the registered entry follows. -/
theorem publish_registers_before_upload_without_rollback
    (env : Env) (verbose : Bool) (path : String) (n0 v0 : Option String)
    (sfx : String) (pt0 : Option PackageType) (rn : String)
    (vnd pn pe : Option String) (tags : List String) (otp : Option String)
    (sha e : String)
    (hfa : env.fetchAddResult = .ok sha)
    (hcr : env.createReleaseResult = .error e) :
    (∀ ef ∈ (run_publish env false verbose path n0 v0 sfx pt0 rn vnd pn pe tags otp).2,
        ef.isBackendMutation = false) ∨
    ∃ pre nm vnd2 pt rel tg art,
      (run_publish env false verbose path n0 v0 sfx pt0 rn vnd pn pe tags otp).2 =
        pre ++ [Effect.backendRegister nm vnd2 pt rel,
                Effect.backendUpload sha tg [art]] ∧
      (∀ ef ∈ pre, ef.isBackendMutation = false) ∧
      (run_publish env false verbose path n0 v0 sfx pt0 rn vnd pn pe tags otp).1 =
        .err (.genericError e) := by
  rcases run_publish_cases env false verbose path n0 v0 sfx pt0 rn vnd pn pe tags otp with
    h | ⟨pre, nm, vnd2, pt, rel, tg, art, hpre, hsv, htr, hout⟩
  · exact Or.inl (all_preOk_no_backend env _ h)
  · refine Or.inr ⟨pre, nm, vnd2, pt, rel, tg, art, ?_, all_preOk_no_backend env pre hpre, ?_⟩
    · rw [htr, publishTail_upload_error env nm vnd2 pt rel tg art sha e hfa hcr]
    · rw [hout, publishTail_upload_error env nm vnd2 pt rel tg art sha e hfa hcr]

theorem publish_registers_before_upload_without_rollback_witness :
    (∀ ef ∈ (run_publish { envA with createReleaseResult := .error "upload failed" }
        false false "/pkg" none none "" none "default" none none none [] none).2,
        ef.isBackendMutation = false) ∨
    ∃ pre nm vnd2 pt rel tg art,
      (run_publish { envA with createReleaseResult := .error "upload failed" }
        false false "/pkg" none none "" none "default" none none none [] none).2 =
        pre ++ [Effect.backendRegister nm vnd2 pt rel,
                Effect.backendUpload "abc123" tg [art]] ∧
      (∀ ef ∈ pre, ef.isBackendMutation = false) ∧
      (run_publish { envA with createReleaseResult := .error "upload failed" }
        false false "/pkg" none none "" none "default" none none none [] none).1 =
        .err (.genericError "upload failed") :=
  publish_registers_before_upload_without_rollback
    { envA with createReleaseResult := .error "upload failed" }
    false "/pkg" none none "" none "default" none none none [] none
    "abc123" "upload failed" rfl rfl

/-- C2 counterexample: a dry-run publish of a directory still performs
filesystem writes (the temporary directory and the release archive are
created), so a `dry_run=true` publish does not result in zero filesystem
mutations. -/
theorem dry_run_publish_writes_archive :
    ((run_publish envA true false "/pkg" none none "" none "default"
        none none none [] none).2).any Effect.isFilesystemWrite = true ∧
    (run_publish envA true false "/pkg" none none "" none "default"
        none none none [] none).1 = .ok true := by
  exact ⟨by decide, by decide⟩

/-- C2 (amended): the `dry_run` flag guards exactly the backend mutations —
a publish run with `dry_run=true` performs no index registration and no
hosted-release upload, only reporting them — while the packaging still
writes the archive to a temporary directory. -/
theorem dry_run_skips_backend_mutations (env : Env) (verbose : Bool)
    (path : String) (n0 v0 : Option String) (sfx : String)
    (pt0 : Option PackageType) (rn : String) (vnd pn pe : Option String)
    (tags : List String) (otp : Option String) :
    ((run_publish env true verbose path n0 v0 sfx pt0 rn vnd pn pe tags otp).2).all
      (fun ef => !ef.isBackendMutation) = true := by
  rcases run_publish_cases env true verbose path n0 v0 sfx pt0 rn vnd pn pe tags otp with
    h | ⟨pre, nm, vnd2, pt, rel, tg, art, hpre, hsv, htr, hout⟩
  · rw [List.all_eq_true]
    intro ef hef
    simp [preOk_not_backend env ef (List.all_eq_true.mp h ef hef)]
  · rw [htr, publishTail_dry, List.all_eq_true]
    intro ef hef
    rcases List.mem_append.mp hef with h1 | h2
    · simp [preOk_not_backend env ef (List.all_eq_true.mp hpre ef h1)]
    · simp only [List.mem_cons, List.not_mem_nil, or_false] at h2
      rcases h2 with rfl | rfl <;> rfl

/-- C3 counterexample: the empty resolved name passes `is_name_valid`
(`String::chars().all` is vacuously true), and a publish with an empty
caller-supplied name runs to successful completion instead of failing with
`InvalidArgument`. -/
theorem empty_name_publish_succeeds :
    is_name_valid Char.isDigit "" = true ∧
    (run_publish { envA with isDir := false } false false "/pkg/file.zip"
        (some "") (some "1.0.0") "" (some PackageType.plugin) "default"
        none none none [] none).1 = .ok true := by
  exact ⟨by decide, by decide⟩

/-- C3 (amended): a resolved name containing a character that is not `.`,
`_`, numeric (in the sense of Rust `char::is_numeric`) or ASCII lowercase
makes the publish fail with `InvalidArgument`; the empty name, however, is
accepted by the validation (non-emptiness is not enforced). -/
theorem invalid_char_name_rejected
    (env : Env) (dry verbose : Bool) (path v sfx : String)
    (pt : PackageType) (rn : String) (vnd pn pe : Option String)
    (tags : List String) (n : String) (c : Char)
    (hgit : env.gitInstalled = true) (hgh : env.ghInstalled = true)
    (hex : env.pathExists = true) (hdir : env.isDir = false)
    (hc : c ∈ n.data) (hdot : c ≠ '.') (hus : c ≠ '_')
    (hnum : env.charIsNumeric c = false) (hlow : isAsciiLowercase c = false) :
    run_publish env dry verbose path (some n) (some v) sfx (some pt) rn vnd pn pe tags none =
      (.err (.invalidArgumentError
        ("Name " ++ n ++ " is not valid. It should match regex [a-z0-9._]")), []) := by
  have hnv : is_name_valid env.charIsNumeric n = false := by
    apply Bool.eq_false_iff.mpr
    intro hall
    have := List.all_eq_true.mp hall c hc
    simp [hdot, hus, hnum, hlow] at this
  unfold run_publish
  simp [hgit, hgh, hex, hdir, scanDirectory, hnv]

theorem invalid_char_name_rejected_witness :
    run_publish { envA with isDir := false } false false "/pkg"
        (some "Bad") (some "1.0.0") "" (some PackageType.plugin) "default"
        none none none [] none =
      (.err (.invalidArgumentError
        ("Name " ++ "Bad" ++ " is not valid. It should match regex [a-z0-9._]")), []) :=
  invalid_char_name_rejected { envA with isDir := false } false false "/pkg"
    "1.0.0" "" PackageType.plugin "default" none none none [] "Bad" 'B'
    rfl rfl rfl rfl (by decide) (by decide) (by decide) (by decide) (by decide)

/-- C4: for a directory publish whose manifest is among the collected
release files, the manifest copy stored in the archive carries the
finalized version (the manifest version with the caller-supplied suffix
appended verbatim) in its version field, and that same finalized version
appears verbatim in the release tag embedded in the archive file name
`\x7bname\x7d-\x7bversion\x7d-\x7bplatform\x7d`, independent of the on-disk manifest. -/
theorem manifest_version_rewritten_in_archive
    (env : Env) (dry verbose : Bool) (path mf sfx rn : String) (m : Manifest)
    (vnd pn pe : Option String) (tags : List String)
    (hgit : env.gitInstalled = true) (hgh : env.ghInstalled = true)
    (hex : env.pathExists = true) (hdir : env.isDir = true)
    (hopt : env.optionsFile = none)
    (hpl : env.pluginManifestFile = .ok (some mf))
    (hsub : env.subsystemManifestFile = .ok none)
    (hread : env.readFile mf = .manifest m)
    (hbin : m.binary_path = none)
    (hname : is_name_valid env.charIsNumeric m.name = true)
    (hver : (env.semverParse (m.version ++ sfx)).isSome = true)
    (hws : env.workspaceLoad = .ok ())
    (hmem : mf ∈ env.globWalk ["**"]) :
    ∃ entries,
      Effect.createdArchive
        (env.tempDir ++ "/" ++
          (m.name ++ "-" ++ (m.version ++ sfx) ++ "-" ++ env.hostPlatform.toString) ++ "." ++
          (if env.hostPlatform.os == "windows" then "zip" else "tar.gz"))
        (hostArchiveFormat env) entries ∈
          (run_publish env dry verbose path none none sfx none rn vnd pn pe tags none).2 ∧
      (stripRoot env.absPath mf,
        FileData.manifest { m with version := m.version ++ sfx }) ∈ entries := by
  rcases Option.isSome_iff_exists.mp hver with ⟨sv, hsv⟩
  have hsc : scanDirectory env env.hostPlatform none none none =
      (Step.cont { nospub := { release_globs := ["**"],
                               additional_publish_triggering_globs := none,
                               target_platforms := none },
                   name := some m.name, version := some m.version,
                   packageType := some PackageType.plugin, manifestFile := some mf,
                   apiVersion := none, minRequiredMinor := none,
                   dependencies := m.dependencies, category := m.category,
                   moduleTags := m.tags },
       [Effect.readOptionsFile env.absPath, Effect.searchedManifests env.absPath,
        Effect.readManifest mf]) := by
    simp [scanDirectory, hdir, hopt, hpl, hsub, hread, hbin,
          PublishOptions.from_file, targetPlatformExcluded]
  unfold run_publish
  simp only [hgit, hgh, hex, Bool.not_true, Bool.not_false, if_false, if_true,
             ite_true, ite_false, hsc]
  simp only [hname, hsv, hws]
  simp [packageArtifact, hdir]
  cases hfind : List.find? (fun r => r.name == rn) env.remotes with
  | none =>
      simp only [hfind]
      refine ⟨(env.globWalk ["**"]).map
        (fun p => (stripRoot env.absPath p,
          if (some mf : Option String) = some p then
            rewriteVersion (m.version ++ sfx) (env.readFile p)
          else env.readFile p)), ?_, ?_⟩
      · simp
      · have hm := List.mem_map_of_mem (f := fun p => (stripRoot env.absPath p,
          if (some mf : Option String) = some p then
            rewriteVersion (m.version ++ sfx) (env.readFile p)
          else env.readFile p)) hmem
        simpa [hread, rewriteVersion] using hm
  | some remote =>
      simp only [hfind]
      refine ⟨(env.globWalk ["**"]).map
        (fun p => (stripRoot env.absPath p,
          if (some mf : Option String) = some p then
            rewriteVersion (m.version ++ sfx) (env.readFile p)
          else env.readFile p)), ?_, ?_⟩
      · simp
      · have hm := List.mem_map_of_mem (f := fun p => (stripRoot env.absPath p,
          if (some mf : Option String) = some p then
            rewriteVersion (m.version ++ sfx) (env.readFile p)
          else env.readFile p)) hmem
        simpa [hread, rewriteVersion] using hm

theorem manifest_version_rewritten_in_archive_witness :
    ∃ entries,
      Effect.createdArchive
        (envA.tempDir ++ "/" ++
          (manifestA.name ++ "-" ++ (manifestA.version ++ ".1") ++ "-" ++
            envA.hostPlatform.toString) ++ "." ++
          (if envA.hostPlatform.os == "windows" then "zip" else "tar.gz"))
        (hostArchiveFormat envA) entries ∈
          (run_publish envA false false "/pkg" none none ".1" none "default"
            none none none [] none).2 ∧
      (stripRoot envA.absPath "/pkg/mymodule.noscfg",
        FileData.manifest { manifestA with version := manifestA.version ++ ".1" }) ∈ entries :=
  manifest_version_rewritten_in_archive envA false false "/pkg"
    "/pkg/mymodule.noscfg" ".1" "default" manifestA none none none []
    rfl rfl rfl rfl rfl rfl rfl (by decide) rfl (by decide) (by decide) rfl
    (by decide)


theorem publishTail_register_entry (env : Env) (dry : Bool) (nm : String)
    (vnd : Option String) (pt : PackageType) (rel : PackageReleaseEntry)
    (tg art nm2 : String) (vnd2 : Option String) (pt2 : PackageType)
    (rel2 : PackageReleaseEntry)
    (h : Effect.backendRegister nm2 vnd2 pt2 rel2 ∈
          (publishTail env dry nm vnd pt rel tg art).2) :
    rel2 = rel := by
  unfold publishTail fetch_add create_gh_release at h
  cases dry
  · cases hfa : env.fetchAddResult with
    | error e => simp [hfa] at h; exact h.2.2.2
    | ok sha =>
        cases hcr : env.createReleaseResult <;> simp [hfa, hcr] at h <;>
          exact h.2.2.2
  · simp at h

theorem publishTail_upload_entry (env : Env) (dry : Bool) (nm : String)
    (vnd : Option String) (pt : PackageType) (rel : PackageReleaseEntry)
    (tg art c t : String) (a : List String)
    (h : Effect.backendUpload c t a ∈ (publishTail env dry nm vnd pt rel tg art).2) :
    a = [art] := by
  unfold publishTail fetch_add create_gh_release at h
  cases dry
  · cases hfa : env.fetchAddResult with
    | error e => simp [hfa] at h
    | ok sha =>
        cases hcr : env.createReleaseResult <;> simp [hfa, hcr] at h <;>
          exact h.2.2
  · simp at h

theorem publishTail_no_archive (env : Env) (dry : Bool) (nm : String)
    (vnd : Option String) (pt : PackageType) (rel : PackageReleaseEntry)
    (tg art p : String) (f : ArchiveFormat) (ents : List (String × FileData))
    (h : Effect.createdArchive p f ents ∈ (publishTail env dry nm vnd pt rel tg art).2) :
    False := by
  unfold publishTail fetch_add create_gh_release at h
  cases dry
  · cases hfa : env.fetchAddResult with
    | error e => simp [hfa] at h
    | ok sha => cases hcr : env.createReleaseResult <;> simp [hfa, hcr] at h
  · simp at h



theorem publishTail_not_ok_false (env : Env) (dry : Bool) (nm : String)
    (vnd : Option String) (pt : PackageType) (rel : PackageReleaseEntry)
    (tg art : String) :
    (publishTail env dry nm vnd pt rel tg art).1 ≠ .ok false := by
  unfold publishTail fetch_add create_gh_release
  cases dry
  · cases hfa : env.fetchAddResult with
    | error e => simp [hfa]
    | ok sha => cases hcr : env.createReleaseResult <;> simp [hfa, hcr]
  · simp

theorem publishTail_no_dir_processing (env : Env) (dry : Bool) (nm : String)
    (vnd : Option String) (pt : PackageType) (rel : PackageReleaseEntry)
    (tg art : String) :
    ∀ ef ∈ (publishTail env dry nm vnd pt rel tg art).2,
      ef.isDirectoryProcessing = false := by
  unfold publishTail fetch_add create_gh_release
  cases dry
  · cases hfa : env.fetchAddResult with
    | error e => simp [hfa, Effect.isDirectoryProcessing]
    | ok sha =>
        cases hcr : env.createReleaseResult <;>
          simp [hfa, hcr, Effect.isDirectoryProcessing]
  · simp [Effect.isDirectoryProcessing]

/-- C5: if the finalized version (resolved version with the caller-supplied
suffix appended) does not parse as SemVer, the publish fails with
`InvalidArgument` before any registration or upload: the failing run returns
the version error with an empty effect trace, and in general a release
entry is registered only when its version parsed as SemVer. -/
theorem unparseable_version_rejected_before_backend :
    (∀ (env : Env) (dry verbose : Bool) (path n v sfx : String)
        (pt : PackageType) (rn : String) (vnd pn pe : Option String)
        (tags : List String),
       env.gitInstalled = true → env.ghInstalled = true →
       env.pathExists = true → env.isDir = false →
       is_name_valid env.charIsNumeric n = true →
       env.semverParse (v ++ sfx) = none →
       run_publish env dry verbose path (some n) (some v) sfx (some pt) rn
           vnd pn pe tags none =
         (.err (.invalidArgumentError
           ("Version should be semantic-versioning compatible: " ++ (v ++ sfx))), [])) ∧
    (∀ (env : Env) (dry verbose : Bool) (path : String) (n0 v0 : Option String)
        (sfx : String) (pt0 : Option PackageType) (rn : String)
        (vnd pn pe : Option String) (tags : List String) (otp : Option String)
        (nm : String) (vnd2 : Option String) (pt : PackageType)
        (rel : PackageReleaseEntry),
       Effect.backendRegister nm vnd2 pt rel ∈
         (run_publish env dry verbose path n0 v0 sfx pt0 rn vnd pn pe tags otp).2 →
       (env.semverParse rel.version).isSome = true) := by
  constructor
  · intro env dry verbose path n v sfx pt rn vnd pn pe tags hgit hgh hex hdir hnm hsv
    unfold run_publish
    simp [hgit, hgh, hex, hdir, scanDirectory, hnm, hsv]
  · intro env dry verbose path n0 v0 sfx pt0 rn vnd pn pe tags otp nm vnd2 pt rel hmem
    rcases run_publish_cases env dry verbose path n0 v0 sfx pt0 rn vnd pn pe tags otp with
      h | ⟨pre, nm1, vnd1, pt1, rel1, tg1, art1, hpre, hsv, htr, hout⟩
    · have := all_preOk_no_backend env _ h _ hmem
      simp [Effect.isBackendMutation] at this
    · rw [htr] at hmem
      rcases List.mem_append.mp hmem with h1 | h2
      · have := all_preOk_no_backend env _ hpre _ h1
        simp [Effect.isBackendMutation] at this
      · have := publishTail_register_entry env dry nm1 vnd1 pt1 rel1 tg1 art1
          nm vnd2 pt rel h2
        rw [this]
        exact hsv

theorem unparseable_version_rejected_before_backend_witness :
    run_publish { envA with isDir := false } false false "/pkg" (some "x")
        (some "1.0.0") "-rc1" (some PackageType.plugin) "default"
        none none none [] none =
      (.err (.invalidArgumentError
        ("Version should be semantic-versioning compatible: " ++ ("1.0.0" ++ "-rc1"))), []) :=
  unparseable_version_rejected_before_backend.1 { envA with isDir := false }
    false false "/pkg" "x" "1.0.0" "-rc1" PackageType.plugin "default"
    none none none [] rfl rfl rfl rfl (by decide) (by decide)

/-- C8: every archive a publish run creates is in the format chosen by the
publishing host OS — zip when the host OS is Windows, tar+gzip otherwise —
regardless of the target platform being published for (the right-hand side
mentions only the host platform, never the target argument). -/
theorem archive_format_follows_host_os
    (env : Env) (dry verbose : Bool) (path : String) (n0 v0 : Option String)
    (sfx : String) (pt0 : Option PackageType) (rn : String)
    (vnd pn pe : Option String) (tags : List String) (otp : Option String)
    (p : String) (f : ArchiveFormat) (ents : List (String × FileData))
    (hmem : Effect.createdArchive p f ents ∈
      (run_publish env dry verbose path n0 v0 sfx pt0 rn vnd pn pe tags otp).2) :
    f = (if env.hostPlatform.os == "windows" then ArchiveFormat.zip
         else ArchiveFormat.targz) := by
  rcases run_publish_cases env dry verbose path n0 v0 sfx pt0 rn vnd pn pe tags otp with
    h | ⟨pre, nm, vnd2, pt, rel, tg, art, hpre, hsv, htr, hout⟩
  · exact preOk_archive_format env p f ents (List.all_eq_true.mp h _ hmem)
  · rw [htr] at hmem
    rcases List.mem_append.mp hmem with h1 | h2
    · exact preOk_archive_format env p f ents (List.all_eq_true.mp hpre _ h1)
    · exact absurd h2 (fun hh =>
        publishTail_no_archive env dry nm vnd2 pt rel tg art p f ents hh)

theorem archive_format_follows_host_os_witness :
    ArchiveFormat.targz =
      (if envA.hostPlatform.os == "windows" then ArchiveFormat.zip
       else ArchiveFormat.targz) :=
  archive_format_follows_host_os envA false false "/pkg" none none "" none
    "default" none none none [] none
    "/tmp/t/mymodule-2.0.0-linux-x64.tar.gz" ArchiveFormat.targz
    [("mymodule.noscfg", FileData.manifest manifestA),
     ("lib.so", FileData.raw [0])]
    (by decide)

/-- C10: for a single-file publish (the path is not a directory) no options
file is consulted, no manifest is searched or parsed, no binary is probed
and no archive is created; the run never ends in the `Ok(false)` platform
skip; and any uploaded artifact list is exactly the file itself, verbatim. -/
theorem file_publish_skips_directory_pipeline
    (env : Env) (dry verbose : Bool) (path : String) (n0 v0 : Option String)
    (sfx : String) (pt0 : Option PackageType) (rn : String)
    (vnd pn pe : Option String) (tags : List String) (otp : Option String)
    (hdir : env.isDir = false) :
    ((run_publish env dry verbose path n0 v0 sfx pt0 rn vnd pn pe tags otp).2.all
        (fun ef => !ef.isDirectoryProcessing) = true) ∧
    (run_publish env dry verbose path n0 v0 sfx pt0 rn vnd pn pe tags otp).1 ≠
      .ok false ∧
    (∀ c t a, Effect.backendUpload c t a ∈
        (run_publish env dry verbose path n0 v0 sfx pt0 rn vnd pn pe tags otp).2 →
      a = [env.absPath]) := by
  have hsc : ∀ tp : Platform, scanDirectory env tp n0 v0 pt0 =
      (Step.cont { nospub := PublishOptions.empty, name := n0,
                   version := v0, packageType := pt0,
                   manifestFile := none, apiVersion := none,
                   minRequiredMinor := none, dependencies := none,
                   category := none, moduleTags := none }, []) := fun tp => by
    simp [scanDirectory, hdir]
  have hpa : ∀ s tag version, packageArtifact env s tag version =
      (env.absPath, []) := fun s tag version => by
    simp [packageArtifact, hdir]
  unfold run_publish
  dsimp only
  simp only [hsc, hpa]
  repeat' split
  all_goals dsimp only
  all_goals refine ⟨?_, ?_, ?_⟩
  all_goals try rfl
  all_goals try (intro hne; simp at hne)
  all_goals try (intro c t a hmem; simp at hmem; done)
  all_goals try (
    rw [List.all_eq_true]
    intro ef hef
    simp only [List.nil_append, List.singleton_append, List.mem_cons] at hef
    rcases hef with rfl | hef
    · rfl
    · simp [publishTail_no_dir_processing _ _ _ _ _ _ _ _ ef hef])
  all_goals try (exact publishTail_not_ok_false _ _ _ _ _ _ _ _)
  all_goals (
    intro c t a hmem
    simp only [List.nil_append, List.singleton_append, List.mem_cons] at hmem
    rcases hmem with heq | hmem
    · simp at heq
    · exact publishTail_upload_entry _ _ _ _ _ _ _ _ _ _ _ hmem)



/-- C6: publishing a directory that contains both a plugin manifest and a
subsystem manifest fails with the ambiguous-manifest `InvalidArgument`
error, and the trace up to that failure contains no filesystem write (in
particular no archive creation) and no backend mutation. -/
theorem ambiguous_manifest_rejected_before_archive
    (env : Env) (dry verbose : Bool) (path : String) (n0 v0 : Option String)
    (sfx : String) (pt0 : Option PackageType) (rn : String)
    (vnd pn pe : Option String) (tags : List String) (pm sm : String)
    (hgit : env.gitInstalled = true) (hgh : env.ghInstalled = true)
    (hex : env.pathExists = true) (hdir : env.isDir = true)
    (hskip : targetPlatformExcluded (PublishOptions.from_file env.optionsFile).1
      (PublishOptions.from_file env.optionsFile).2 env.hostPlatform = false)
    (hpl : env.pluginManifestFile = .ok (some pm))
    (hsub : env.subsystemManifestFile = .ok (some sm)) :
    run_publish env dry verbose path n0 v0 sfx pt0 rn vnd pn pe tags none =
      (.err (.invalidArgumentError
        ("Multiple module manifest files found in " ++ env.absPath)),
       [Effect.readOptionsFile env.absPath, Effect.searchedManifests env.absPath]) ∧
    ∀ ef ∈ [Effect.readOptionsFile env.absPath, Effect.searchedManifests env.absPath],
      ef.isFilesystemWrite = false ∧ ef.isBackendMutation = false := by
  constructor
  · unfold run_publish
    simp [hgit, hgh, hex, scanDirectory, hdir, hskip, hpl, hsub]
  · intro ef hef
    simp only [List.mem_cons, List.not_mem_nil, or_false] at hef
    rcases hef with rfl | rfl <;> exact ⟨rfl, rfl⟩


/-- Options file restricting `target_platforms` to Windows only. -/
def optsWinOnly : PublishOptions :=
  { release_globs := ["**"], additional_publish_triggering_globs := none,
    target_platforms := some ["windows-x64"] }

/-- Directory publish environment whose options exclude the Linux host. -/
def envC7 : Env := { envA with optionsFile := some optsWinOnly }

/-- Directory publish environment with both a plugin and a subsystem
manifest. -/
def envC6 : Env := { envA with subsystemManifestFile := .ok (some "/pkg/sub.noscfg") }

theorem ambiguous_manifest_rejected_before_archive_witness :
    run_publish envC6
        false false "/pkg" none none "" none "default" none none none [] none =
      (.err (.invalidArgumentError
        ("Multiple module manifest files found in " ++ envC6.absPath)),
       [Effect.readOptionsFile envC6.absPath,
        Effect.searchedManifests envC6.absPath]) ∧
    ∀ ef ∈ [Effect.readOptionsFile envC6.absPath,
            Effect.searchedManifests envC6.absPath],
      ef.isFilesystemWrite = false ∧ ef.isBackendMutation = false :=
  ambiguous_manifest_rejected_before_archive envC6
    false false "/pkg" none none "" none "default" none none none []
    "/pkg/mymodule.noscfg" "/pkg/sub.noscfg"
    rfl rfl rfl rfl (by decide) rfl rfl

/-- C7: when the publish-options file declares a `target_platforms` list
that does not contain the resolved target platform, the publish returns
`Ok(false)` — a successful no-op — having only read the options file: no
packaging, registration or upload happens. -/
theorem excluded_target_platform_skips_publish
    (env : Env) (dry verbose : Bool) (path : String) (n0 v0 : Option String)
    (sfx : String) (pt0 : Option PackageType) (rn : String)
    (vnd pn pe : Option String) (tags : List String) (opts : PublishOptions)
    (ts : List String)
    (hgit : env.gitInstalled = true) (hgh : env.ghInstalled = true)
    (hex : env.pathExists = true) (hdir : env.isDir = true)
    (hopt : env.optionsFile = some opts)
    (hts : opts.target_platforms = some ts)
    (hnc : ts.contains env.hostPlatform.toString = false) :
    run_publish env dry verbose path n0 v0 sfx pt0 rn vnd pn pe tags none =
      (.ok false, [Effect.readOptionsFile env.absPath]) := by
  have hmemts : env.hostPlatform.toString ∉ ts := by simpa using hnc
  unfold run_publish
  simp [hgit, hgh, hex, scanDirectory, hdir, hopt, PublishOptions.from_file,
        targetPlatformExcluded, hts, hnc, hmemts]

theorem excluded_target_platform_skips_publish_witness :
    run_publish envC7
        false false "/pkg" none none "" none "default" none none none [] none =
      (.ok false, [Effect.readOptionsFile envC7.absPath]) :=
  excluded_target_platform_skips_publish envC7
    false false "/pkg" none none "" none "default" none none none []
    optsWinOnly ["windows-x64"] rfl rfl rfl rfl rfl rfl (by decide)

/-- C9: when the publish path exists but no package type is resolved (a
single-file publish, or a directory without manifests, with no type
supplied), `run_publish` aborts with the `Option::unwrap` panic at
publish.rs:348 instead of returning a typed error — even when the name and
version arguments are absent, so the missing-name/missing-version checks
are never reached. -/
theorem unresolved_package_type_panics :
    (∀ (env : Env) (dry verbose : Bool) (path : String) (n0 v0 : Option String)
        (sfx rn : String) (vnd pn pe : Option String) (tags : List String),
       env.gitInstalled = true → env.ghInstalled = true →
       env.pathExists = true → env.isDir = false →
       run_publish env dry verbose path n0 v0 sfx none rn vnd pn pe tags none =
         (.panic "called Option::unwrap on a None value", [])) ∧
    (∀ (env : Env) (dry verbose : Bool) (path : String) (n0 v0 : Option String)
        (sfx rn : String) (vnd pn pe : Option String) (tags : List String),
       env.gitInstalled = true → env.ghInstalled = true →
       env.pathExists = true → env.isDir = true → env.optionsFile = none →
       env.pluginManifestFile = .ok none → env.subsystemManifestFile = .ok none →
       run_publish env dry verbose path n0 v0 sfx none rn vnd pn pe tags none =
         (.panic "called Option::unwrap on a None value",
          [Effect.readOptionsFile env.absPath, Effect.searchedManifests env.absPath])) := by
  constructor
  · intro env dry verbose path n0 v0 sfx rn vnd pn pe tags hgit hgh hex hdir
    unfold run_publish
    simp [hgit, hgh, hex, scanDirectory, hdir]
  · intro env dry verbose path n0 v0 sfx rn vnd pn pe tags hgit hgh hex hdir hopt hpl hsub
    unfold run_publish
    simp [hgit, hgh, hex, scanDirectory, hdir, hopt, PublishOptions.from_file,
          targetPlatformExcluded, hpl, hsub]

/-- Single-file publish environment (the path is not a directory). -/
def envFileA : Env := { envA with isDir := false }

theorem unresolved_package_type_panics_witness :
    run_publish envFileA false false "/pkg" none none ""
        none "default" none none none [] none =
      (.panic "called Option::unwrap on a None value", []) :=
  unresolved_package_type_panics.1 envFileA false false
    "/pkg" none none "" "default" none none none [] rfl rfl rfl rfl

theorem file_publish_skips_directory_pipeline_witness :
    ((run_publish envFileA false false "/pkg" (some "x")
        (some "1.0.0") "" (some PackageType.plugin) "default" none none none
        [] none).2.all (fun ef => !ef.isDirectoryProcessing) = true) ∧
    (run_publish envFileA false false "/pkg" (some "x")
        (some "1.0.0") "" (some PackageType.plugin) "default" none none none
        [] none).1 ≠ .ok false ∧
    (∀ c t a, Effect.backendUpload c t a ∈
        (run_publish envFileA false false "/pkg" (some "x")
          (some "1.0.0") "" (some PackageType.plugin) "default" none none none
          [] none).2 →
      a = [envFileA.absPath]) :=
  file_publish_skips_directory_pipeline envFileA false false
    "/pkg" (some "x") (some "1.0.0") "" (some PackageType.plugin) "default"
    none none none [] none rfl


end Nosman
